import Mathlib

/-!
Verification of the exit-order core of the Algomirror repository.

The definitions below are a shallow embedding of the Python source:
  - `app/utils/exit_order_manager.py` (atomic claims, mark transitions,
    broker verification, retry-eligibility query),
  - `app/utils/supertrend_exit_service.py` (the sequential exit coordinator
    `trigger_sequential_exit`, the retry sweep of `monitor_strategies`, and
    the exit-signal decision of `check_supertrend_exit`),
  - `app/utils/supertrend.py` (the direction computation of
    `get_final_bands_nb` and `get_supertrend_signal`).

Timestamps are modelled as natural numbers (seconds); database rows as
records; SQL conditional updates as pure functions returning the claimed
flag together with the new row; broker calls as in-band reply values
supplied to the function, mirroring `ExtendedOpenAlgoAPI._make_request`
which converts every transport fault into an in-band error dictionary.
-/

/-- `EXIT_RETRY_DELAY_SECONDS` from `exit_order_manager.py`. -/
def EXIT_RETRY_DELAY_SECONDS : Nat := 10

/-- `MAX_EXIT_ATTEMPTS` from `exit_order_manager.py`. -/
def MAX_EXIT_ATTEMPTS : Nat := 5

/-- A `StrategyExecution` row: the exit-relevant persisted fields of one
position (see the spec's data model and the columns used by
`exit_order_manager.py`).  Nullable columns are `Option`s. -/
structure StrategyExecution where
  status : String
  exit_order_id : Option String
  exit_reason : Option String
  exit_pending_since : Option Nat
  exit_attempt_count : Option Nat
  exit_retry_after : Option Nat
  exit_broker_verified : Option Bool
  broker_order_status : Option String
  exit_time : Option Nat
  error_message : Option String
deriving DecidableEq

/-- SQL `exit_retry_after <= now` with NULL semantics: a NULL timer never
compares true (the row is not matched). -/
def retryTimerDue (now : Nat) (ra : Option Nat) : Prop :=
  match ra with
  | some t => t ≤ now
  | none => False

instance (now : Nat) (ra : Option Nat) : Decidable (retryTimerDue now ra) := by
  unfold retryTimerDue
  cases ra with
  | none => exact inferInstanceAs (Decidable False)
  | some t => exact inferInstanceAs (Decidable (t ≤ now))

/-- SQL `exit_attempt_count < MAX_EXIT_ATTEMPTS` with NULL semantics: a NULL
count never compares true. -/
def attemptsRemain (c : Option Nat) : Prop :=
  match c with
  | some v => v < MAX_EXIT_ATTEMPTS
  | none => False

instance (c : Option Nat) : Decidable (attemptsRemain c) := by
  unfold attemptsRemain
  cases c with
  | none => exact inferInstanceAs (Decidable False)
  | some v => exact inferInstanceAs (Decidable (v < MAX_EXIT_ATTEMPTS))

/-- `atomic_claim_exit`: single conditional UPDATE that moves a row from
`entered` to `exit_pending`.  Returns the claimed flag (rowcount > 0) and
the resulting row.  The WHERE clause requires `status = 'entered'` and
`exit_order_id IS NULL`; the SET clause writes the new status, the reason,
`exit_pending_since = now`, `coalesce(exit_attempt_count, 0) + 1`, and
`exit_retry_after = now + EXIT_RETRY_DELAY_SECONDS`. -/
def atomic_claim_exit (now : Nat) (exit_reason : String) (e : StrategyExecution) :
    Bool × StrategyExecution :=
  if e.status = "entered" ∧ e.exit_order_id = none then
    (true,
      { e with
        status := "exit_pending"
        exit_reason := some exit_reason
        exit_pending_since := some now
        exit_attempt_count := some (e.exit_attempt_count.getD 0 + 1)
        exit_retry_after := some (now + EXIT_RETRY_DELAY_SECONDS) })
  else
    (false, e)

/-- `atomic_claim_exit_retry`: single conditional UPDATE claiming an
`exit_pending` row for a retry.  The WHERE clause requires
`status = 'exit_pending'`, `exit_order_id IS NULL`,
`exit_retry_after <= now` and `exit_attempt_count < MAX_EXIT_ATTEMPTS`;
the SET clause increments the count, re-arms the retry timer and records
the reason. -/
def atomic_claim_exit_retry (now : Nat) (exit_reason : String) (e : StrategyExecution) :
    Bool × StrategyExecution :=
  if e.status = "exit_pending" ∧ e.exit_order_id = none ∧
      retryTimerDue now e.exit_retry_after ∧ attemptsRemain e.exit_attempt_count then
    (true,
      { e with
        exit_attempt_count := some (e.exit_attempt_count.getD 0 + 1)
        exit_retry_after := some (now + EXIT_RETRY_DELAY_SECONDS)
        exit_reason := some exit_reason })
  else
    (false, e)

/-- `mark_exit_pending`: sets `status = 'exit_pending'`, records the reason,
sets `exit_pending_since` only when unset, optionally increments the
attempt count and re-arms the retry timer. -/
def mark_exit_pending (now : Nat) (exit_reason : String) (increment_attempt : Bool)
    (e : StrategyExecution) : StrategyExecution :=
  { e with
    status := "exit_pending"
    exit_reason := some exit_reason
    exit_pending_since :=
      match e.exit_pending_since with
      | some t => some t
      | none => some now
    exit_attempt_count :=
      if increment_attempt then some (e.exit_attempt_count.getD 0 + 1)
      else e.exit_attempt_count
    exit_retry_after := some (now + EXIT_RETRY_DELAY_SECONDS) }

/-- `mark_exit_success`: records the placed order id, sets
`broker_order_status = 'open'`, stamps `exit_time` and clears the broker
verification flag (the poller will verify). -/
def mark_exit_success (now : Nat) (order_id : String) (e : StrategyExecution) :
    StrategyExecution :=
  { e with
    exit_order_id := some order_id
    broker_order_status := some "open"
    exit_time := some now
    exit_broker_verified := some false }

/-- `mark_exit_failed`: keeps (forces) `status = 'exit_pending'`, stores the
first 500 characters of the error message (Python `error_message[:500] if
error_message else None` — the empty string stores NULL), re-arms the retry
timer and sets `exit_broker_verified` to the negation of
`needs_broker_verification`. -/
def mark_exit_failed (now : Nat) (error_message : String)
    (needs_broker_verification : Bool) (e : StrategyExecution) : StrategyExecution :=
  { e with
    status := "exit_pending"
    error_message :=
      if error_message = "" then none
      else some (String.mk (error_message.data.take 500))
    exit_retry_after := some (now + EXIT_RETRY_DELAY_SECONDS)
    exit_broker_verified := some (!needs_broker_verification) }

/-- `mark_exit_confirmed`: sets `status = 'exited'`, the broker status,
overwrites `exit_order_id` whenever the `order_id` argument is truthy
(Python `if order_id:` — non-None and non-empty), stamps `exit_time` only
when unset, and sets `exit_broker_verified = True`. -/
def mark_exit_confirmed (now : Nat) (broker_status : String)
    (order_id : Option String) (e : StrategyExecution) : StrategyExecution :=
  { e with
    status := "exited"
    broker_order_status := some broker_status
    exit_order_id :=
      match order_id with
      | some s => if s = "" then e.exit_order_id else some s
      | none => e.exit_order_id
    exit_time :=
      match e.exit_time with
      | some t => some t
      | none => some now
    exit_broker_verified := some true }

/-- One claim operation of the Exit Claim Controller, applied at a given
instant with a given reason. -/
inductive ClaimCall where
  | fresh (now : Nat) (reason : String)
  | retry (now : Nat) (reason : String)
deriving DecidableEq

/-- Apply one claim call to a row. -/
def applyClaim (c : ClaimCall) (e : StrategyExecution) : Bool × StrategyExecution :=
  match c with
  | ClaimCall.fresh now reason => atomic_claim_exit now reason e
  | ClaimCall.retry now reason => atomic_claim_exit_retry now reason e

/-- Run a sequence of claim calls on a row, returning the list of claimed
flags (in call order) and the final row. -/
def runClaims : List ClaimCall → StrategyExecution → List Bool × StrategyExecution
  | [], e => ([], e)
  | c :: cs, e =>
    let p := applyClaim c e
    let q := runClaims cs p.2
    (p.1 :: q.1, q.2)

/-- One row of the broker positionbook reply (`symbol`, `quantity`). -/
structure BrokerPos where
  symbol : String
  quantity : Int
deriving DecidableEq

/-- One row of the broker orderbook reply. -/
structure BrokerOrder where
  symbol : String
  transaction_type : String
  order_status : String
  orderid : String
deriving DecidableEq

/-- One row of the broker tradebook reply. -/
structure BrokerTrade where
  symbol : String
  transaction_type : String
  orderid : String
  quantity : Int
deriving DecidableEq

/-- A positionbook reply: the in-band `status` string and the data rows.
`ExtendedOpenAlgoAPI._make_request` turns every transport fault into an
in-band reply whose status is not `success`. -/
structure PosReply where
  status : String
  data : List BrokerPos
deriving DecidableEq

/-- An orderbook reply. -/
structure OrderReply where
  status : String
  data : List BrokerOrder
deriving DecidableEq

/-- A tradebook reply. -/
structure TradeReply where
  status : String
  data : List BrokerTrade
deriving DecidableEq

/-- The result dictionary of `verify_exit_order_at_broker`. -/
structure VerifyResult where
  has_exit_order : Bool
  order_status : Option String
  order_id : Option String
  position_quantity : Int
  can_place_exit : Bool
  message : String
deriving DecidableEq

/-- Character-wise uppercase (Python `str.upper` over the ASCII actions and
statuses this code compares). -/
def strUpper (s : String) : String := String.mk (s.data.map Char.toUpper)

/-- Character-wise lowercase (Python `str.lower`). -/
def strLower (s : String) : String := String.mk (s.data.map Char.toLower)

/-- Whether a character list starts with a pattern. -/
def charsBeginWith : List Char → List Char → Bool
  | _, [] => true
  | [], _ :: _ => false
  | a :: as, b :: bs => a == b && charsBeginWith as bs

/-- Whether a character list contains a pattern as a contiguous substring
(Python `pattern in s`). -/
def charsContain : List Char → List Char → Bool
  | [], pat => charsBeginWith [] pat
  | a :: rest, pat => charsBeginWith (a :: rest) pat || charsContain rest pat

/-- Entry action of a position: the leg's action uppercased, defaulting to
`BUY` when the position has no leg (`execution.leg.action.upper() if
execution.leg else 'BUY'`). -/
def entryActionOf (leg : Option String) : String :=
  match leg with
  | some a => strUpper a
  | none => "BUY"

/-- Exit action: the opposite of the entry action
(`'SELL' if entry_action == 'BUY' else 'BUY'`). -/
def exitActionOf (leg : Option String) : String :=
  if entryActionOf leg = "BUY" then "SELL" else "BUY"

/-- `verify_exit_order_at_broker`, embedded over the three broker replies.
Step 1 reads the live quantity for the symbol from a successful
positionbook reply (first match, absolute value), leaving 0 otherwise;
quantity 0 short-circuits to "already closed".  Step 2 scans a successful
orderbook reply for the first order on the symbol with the exit action and
decides from its (lowercased) status.  Step 3 scans a successful tradebook
reply for the first exit trade on the symbol whose absolute quantity
covers the position.  Otherwise placing is allowed. -/
def verify_exit_order_at_broker (symbol : String) (quantity : Int)
    (leg : Option String) (pb : PosReply) (ob : OrderReply) (tb : TradeReply) :
    VerifyResult :=
  let pq : Int :=
    if pb.status = "success" then
      match pb.data.find? (fun p => p.symbol == symbol) with
      | some p => (p.quantity.natAbs : Int)
      | none => 0
    else 0
  if pq = 0 then
    { has_exit_order := true
      order_status := some "complete"
      order_id := none
      position_quantity := 0
      can_place_exit := false
      message := "Position already closed at broker (quantity=0)" }
  else
    let exit_action := exitActionOf leg
    let foundOrder :=
      if ob.status = "success" then
        ob.data.find? (fun o =>
          o.symbol == symbol && strUpper o.transaction_type == exit_action)
      else none
    match foundOrder with
    | some o =>
      let st := strLower o.order_status
      if st = "complete" then
        { has_exit_order := true, order_status := some st, order_id := some o.orderid
          position_quantity := pq, can_place_exit := false
          message := "Exit order " ++ o.orderid ++ " already completed" }
      else if st = "open" ∨ st = "pending" ∨ st = "trigger_pending" then
        { has_exit_order := true, order_status := some st, order_id := some o.orderid
          position_quantity := pq, can_place_exit := false
          message := "Exit order " ++ o.orderid ++ " is " ++ st }
      else if st = "cancelled" ∨ st = "rejected" then
        { has_exit_order := true, order_status := some st, order_id := some o.orderid
          position_quantity := pq, can_place_exit := true
          message := "Previous exit order " ++ o.orderid ++ " was " ++ st }
      else
        { has_exit_order := true, order_status := some st, order_id := some o.orderid
          position_quantity := pq, can_place_exit := false
          message := "Exit order " ++ o.orderid ++ " has status: " ++ st }
    | none =>
      let foundTrade :=
        if tb.status = "success" then
          tb.data.find? (fun t =>
            t.symbol == symbol && strUpper t.transaction_type == exit_action &&
              decide (quantity ≤ (t.quantity.natAbs : Int)))
        else none
      match foundTrade with
      | some t =>
        { has_exit_order := true, order_status := some "complete"
          order_id := some t.orderid, position_quantity := pq
          can_place_exit := false
          message := "Exit trade " ++ t.orderid ++ " found in tradebook" }
      | none =>
        { has_exit_order := false, order_status := none, order_id := none
          position_quantity := pq, can_place_exit := true
          message := "No exit order found for " ++ symbol ++
            ", position quantity=" ++ toString pq }

/-- The `except` branch of `verify_exit_order_at_broker`: whatever was in
the result so far, a raised exception records the error text and forces
`can_place_exit = False`. -/
def verifyErrorFallback (r : VerifyResult) (errText : String) : VerifyResult :=
  { r with
    message := "Verification error: " ++ errText
    can_place_exit := false }

/-- Reply to an order submission (`place_order_with_freeze_check` wrapped so
that an API exception becomes an in-band error response, as in
`trigger_sequential_exit`). -/
inductive OrderResp where
  | ok (orderid : String)
  | err (msg : String)
deriving DecidableEq

/-- One candidate row as seen by the coordinator: the execution id, the
presence and entry action of its leg, whether its account is available and
active, the broker environment it would observe (verification result and
order-submission reply), and the persisted execution fields. -/
structure ExecRow where
  id : Nat
  legAction : Option String
  account_active : Bool
  verifyEnv : VerifyResult
  placeEnv : OrderResp
  e : StrategyExecution
deriving DecidableEq

/-- `get_pending_exit_retries`: rows with `status = 'exit_pending'`, no
`exit_order_id`, an elapsed `exit_retry_after` and attempts remaining. -/
def get_pending_exit_retries (now : Nat) (rows : List ExecRow) : List ExecRow :=
  rows.filter (fun r =>
    decide (r.e.status = "exit_pending" ∧ r.e.exit_order_id = none ∧
      retryTimerDue now r.e.exit_retry_after ∧ attemptsRemain r.e.exit_attempt_count))

/-- `'RETRY' in exit_reason.upper()` — the coordinator's retry-episode test. -/
def isRetryReason (exit_reason : String) : Bool :=
  charsContain (strUpper exit_reason).data "RETRY".data

/-- The reason string built by the retry sweep of `monitor_strategies`:
`f"Supertrend RETRY - {len(pending_retries)} positions pending"`. -/
def retryReason (n : Nat) : String :=
  "Supertrend RETRY - " ++ toString n ++ " positions pending"

/-- `ex.broker_order_status in ['rejected', 'cancelled']` (a NULL status is
not in the list). -/
def isRejectedOrCancelled (e : StrategyExecution) : Bool :=
  match e.broker_order_status with
  | some s => s == "rejected" || s == "cancelled"
  | none => false

/-- Candidate selection of `trigger_sequential_exit`: retry episodes take
`entered` or `exit_pending` rows without an `exit_order_id`, first-trigger
episodes only `entered` rows without an `exit_order_id`; rows whose broker
status is rejected or cancelled are excluded. -/
def candidateRows (is_retry_event : Bool) (rows : List ExecRow) : List ExecRow :=
  (rows.filter (fun r =>
    decide ((if is_retry_event then
        r.e.status = "entered" ∨ r.e.status = "exit_pending"
      else r.e.status = "entered") ∧ r.e.exit_order_id = none))).filter
    (fun r => !isRejectedOrCancelled r.e)

/-- `legSell`: `ex.leg and ex.leg.action == 'SELL'`. -/
def legSell (r : ExecRow) : Bool := r.legAction == some "SELL"

/-- `legBuy`: `ex.leg and ex.leg.action == 'BUY'`. -/
def legBuy (r : ExecRow) : Bool := r.legAction == some "BUY"

/-- `legUnknown`: `not ex.leg`. -/
def legUnknown (r : ExecRow) : Bool := r.legAction == none

/-- The BUY-first exit priority of `trigger_sequential_exit`: all SELL-entry
rows, then all BUY-entry rows, then rows without a leg. -/
def orderedRows (cands : List ExecRow) : List ExecRow :=
  cands.filter legSell ++ cands.filter legBuy ++ cands.filter legUnknown

/-- The externally observable steps the coordinator takes for one row, each
tagged with the row's id and leg action. -/
inductive ExitEvent where
  | claimMiss (id : Nat) (leg : Option String)
  | accountSkip (id : Nat) (leg : Option String)
  | confirmedComplete (id : Nat) (leg : Option String)
  | brokerClosed (id : Nat) (leg : Option String)
  | verifySkip (id : Nat) (leg : Option String)
  | submit (id : Nat) (leg : Option String) (action : String) (resp : OrderResp)
deriving DecidableEq

/-- The leg tag carried by an event. -/
def ExitEvent.leg : ExitEvent → Option String
  | ExitEvent.claimMiss _ l => l
  | ExitEvent.accountSkip _ l => l
  | ExitEvent.confirmedComplete _ l => l
  | ExitEvent.brokerClosed _ l => l
  | ExitEvent.verifySkip _ l => l
  | ExitEvent.submit _ l _ _ => l

/-- Order submission and its bookkeeping: a success response runs
`mark_exit_success`, a failure runs `mark_exit_failed` with
`needs_broker_verification=True`. -/
def submitExitOrder (now : Nat) (r : ExecRow) (e1 : StrategyExecution) :
    ExecRow × List ExitEvent :=
  match r.placeEnv with
  | OrderResp.ok oid =>
    ({ r with e := mark_exit_success now oid e1 },
      [ExitEvent.submit r.id r.legAction (exitActionOf r.legAction) (OrderResp.ok oid)])
  | OrderResp.err msg =>
    ({ r with e := mark_exit_failed now msg true e1 },
      [ExitEvent.submit r.id r.legAction (exitActionOf r.legAction) (OrderResp.err msg)])

/-- Per-row body of the coordinator loop once the claim outcome is known:
skip on a claim miss, skip when the account is missing or inactive, run
broker verification when this is at least the second attempt (confirm a
complete exit, record a broker-closed position directly, or skip an
unresolved order), and otherwise submit exactly one exit order. -/
def processClaimed (now : Nat) (r : ExecRow) (claim : Bool × StrategyExecution) :
    ExecRow × List ExitEvent :=
  if claim.1 then
    if r.account_active then
      if claim.2.exit_attempt_count.getD 0 > 1 then
        if r.verifyEnv.can_place_exit then
          submitExitOrder now r claim.2
        else
          if r.verifyEnv.order_status = some "complete" then
            ({ r with e := mark_exit_confirmed now "complete" r.verifyEnv.order_id claim.2 },
              [ExitEvent.confirmedComplete r.id r.legAction])
          else if r.verifyEnv.position_quantity = 0 then
            ({ r with e :=
                { claim.2 with
                  status := "exited"
                  exit_reason := some "broker_confirmed_closed"
                  exit_time := some now } },
              [ExitEvent.brokerClosed r.id r.legAction])
          else
            ({ r with e := claim.2 }, [ExitEvent.verifySkip r.id r.legAction])
      else
        submitExitOrder now r claim.2
    else
      ({ r with e := claim.2 }, [ExitEvent.accountSkip r.id r.legAction])
  else
    ({ r with e := claim.2 }, [ExitEvent.claimMiss r.id r.legAction])

/-- Per-row body of the coordinator loop: attempt the atomic claim for the
episode type, then proceed as in `processClaimed`. -/
def processRow (now : Nat) (is_retry_event : Bool) (exit_reason : String)
    (r : ExecRow) : ExecRow × List ExitEvent :=
  processClaimed now r
    (if is_retry_event then atomic_claim_exit_retry now exit_reason r.e
     else atomic_claim_exit now exit_reason r.e)

/-- The outcome of one coordinator invocation: the latch value after the
call, the final states of the rows it processed (in processing order) and
the trace of its per-row steps.  Rows it did not process are untouched. -/
structure CoordResult where
  triggered : Bool
  rows : List ExecRow
  events : List ExitEvent
deriving DecidableEq

/-- `trigger_sequential_exit`: under the row lock, a strategy whose latch
(`supertrend_exit_triggered`) is already set is skipped outright — the
function returns having processed nothing.  Otherwise the latch is set and
committed, candidates are selected per episode type, ordered SELL-entry
first, and processed sequentially. -/
def trigger_sequential_exit (now : Nat) (strategyTriggered : Bool)
    (exit_reason : String) (rows : List ExecRow) : CoordResult :=
  if strategyTriggered then
    { triggered := true, rows := [], events := [] }
  else
    let is_retry_event := isRetryReason exit_reason
    let ordered := orderedRows (candidateRows is_retry_event rows)
    { triggered := true
      rows := ordered.map (fun r => (processRow now is_retry_event exit_reason r).1)
      events := ordered.flatMap (fun r => (processRow now is_retry_event exit_reason r).2) }

/-- The retry sweep of `monitor_strategies` for one strategy: only
strategies whose latch is already set are examined; when some position is
ready for retry the coordinator is invoked with the RETRY reason (and the
latch still set).  `none` means the coordinator was not invoked. -/
def monitorRetrySweep (now : Nat) (strategyTriggered : Bool)
    (rows : List ExecRow) : Option CoordResult :=
  if strategyTriggered then
    let pending := get_pending_exit_retries now rows
    if pending.length > 0 then
      some (trigger_sequential_exit now strategyTriggered
        (retryReason pending.length) rows)
    else none
  else none

/-- Zip three equal-length price lists into triples (close, upper, lower). -/
def zipBands : List Int → List Int → List Int → List (Int × Int × Int)
  | c :: cs, u :: us, l :: ls => (c, u, l) :: zipBands cs us ls
  | _, _, _ => []

/-- The direction recurrence of `get_final_bands_nb` from index 1 on,
threading the previous direction and the previous (possibly ratcheted)
final bands: a close above the previous upper band flips to 1, a close
below the previous lower band flips to -1, otherwise the direction is kept
and the band on the trend side is ratcheted. -/
def finalBandsDirAux : Int → Int → Int → List (Int × Int × Int) → List Int
  | _, _, _, [] => []
  | dPrev, uPrev, lPrev, (c, u, l) :: rest =>
    if c > uPrev then 1 :: finalBandsDirAux 1 u l rest
    else if c < lPrev then -1 :: finalBandsDirAux (-1) u l rest
    else
      let l2 := if dPrev > 0 ∧ l < lPrev then lPrev else l
      let u2 := if dPrev < 0 ∧ u > uPrev then uPrev else u
      dPrev :: finalBandsDirAux dPrev u2 l2 rest

/-- The direction array of `get_final_bands_nb` (`dir_` is initialised to
all ones; the loop starts at index 1 and never rewrites index 0). -/
def get_final_bands_dir (close upper lower : List Int) : List Int :=
  match close, upper, lower with
  | _ :: cs, u0 :: us, l0 :: ls => 1 :: finalBandsDirAux 1 u0 l0 (zipBands cs us ls)
  | _, _, _ => []

/-- `get_supertrend_signal` from `supertrend.py`: the latest direction maps
to BUY when positive and SELL otherwise; an empty array is NEUTRAL.  Per
the module's documented convention, direction 1 is bullish and -1 is
bearish. -/
def get_supertrend_signal (direction : List Int) : String :=
  match direction.getLast? with
  | none => "NEUTRAL"
  | some d => if d > 0 then "BUY" else "SELL"

/-- The exit-signal decision of `check_supertrend_exit` (lines 302-320 of
`supertrend_exit_service.py`): breakout mode sets `should_exit` exactly
when the latest direction equals -1, breakdown mode exactly when it equals
1; any other mode never fires. -/
def check_supertrend_should_exit (exit_type : String) (latest_direction : Int) : Bool :=
  if exit_type = "breakout" then latest_direction == -1
  else if exit_type = "breakdown" then latest_direction == 1
  else false

/-- Whether `check_supertrend_exit` invokes the coordinator, given the
strategy's mode and the direction array of the latest spread series: it
reads the last (completed-bar) direction and applies the mode test. -/
def check_supertrend_invokes (exit_type : String) (direction : List Int) : Bool :=
  match direction.getLast? with
  | none => false
  | some d => check_supertrend_should_exit exit_type d

/-- Events produced for one row by the coordinator loop body. -/
def rowEvents (now : Nat) (is_retry_event : Bool) (exit_reason : String)
    (r : ExecRow) : List ExitEvent :=
  (processRow now is_retry_event exit_reason r).2

/-- The single observable step `processClaimed` takes for a row, written as
a branch-for-branch mirror of its event component. -/
def claimedEvent (r : ExecRow) (claim : Bool × StrategyExecution) : ExitEvent :=
  if claim.1 then
    if r.account_active then
      if claim.2.exit_attempt_count.getD 0 > 1 then
        if r.verifyEnv.can_place_exit then
          ExitEvent.submit r.id r.legAction (exitActionOf r.legAction) r.placeEnv
        else if r.verifyEnv.order_status = some "complete" then
          ExitEvent.confirmedComplete r.id r.legAction
        else if r.verifyEnv.position_quantity = 0 then
          ExitEvent.brokerClosed r.id r.legAction
        else ExitEvent.verifySkip r.id r.legAction
      else ExitEvent.submit r.id r.legAction (exitActionOf r.legAction) r.placeEnv
    else ExitEvent.accountSkip r.id r.legAction
  else ExitEvent.claimMiss r.id r.legAction

/-- The single observable step `processRow` takes for a row. -/
def rowEvent (now : Nat) (is_retry_event : Bool) (exit_reason : String)
    (r : ExecRow) : ExitEvent :=
  claimedEvent r
    (if is_retry_event then atomic_claim_exit_retry now exit_reason r.e
     else atomic_claim_exit now exit_reason r.e)

/-- The invariant preserved by claim calls: the attempt count is bounded by
`MAX_EXIT_ATTEMPTS`, and a row still in `entered` has not yet reached the
bound (true of every freshly created position, whose count is NULL or 0). -/
def ClaimInv (e : StrategyExecution) : Prop :=
  (∀ k, e.exit_attempt_count = some k → k ≤ MAX_EXIT_ATTEMPTS) ∧
  (e.status = "entered" → ∀ k, e.exit_attempt_count = some k → k < MAX_EXIT_ATTEMPTS)

/-- A freshly created position: `entered`, with every exit field NULL. -/
def freshExecution : StrategyExecution :=
  { status := "entered", exit_order_id := none, exit_reason := none
    exit_pending_since := none, exit_attempt_count := none
    exit_retry_after := none, exit_broker_verified := none
    broker_order_status := none, exit_time := none, error_message := none }

/-- A verification result that reports it is safe to place an exit order. -/
def safeVerify : VerifyResult :=
  { has_exit_order := false, order_status := none, order_id := none
    position_quantity := 75, can_place_exit := true
    message := "No exit order found for SYM, position quantity=75" }

/-- A position that already carries an exit order id. -/
def c1exec : StrategyExecution :=
  { status := "exit_pending", exit_order_id := some "OID9"
    exit_reason := some "supertrend_breakout", exit_pending_since := some 10
    exit_attempt_count := some 1, exit_retry_after := some 20
    exit_broker_verified := some false, broker_order_status := some "open"
    exit_time := some 12, error_message := none }

/-- A sequence of claim calls used by concrete witnesses. -/
def claimSeq : List ClaimCall :=
  [ClaimCall.fresh 30 "max_loss", ClaimCall.retry 40 "Supertrend RETRY - 1 positions pending",
   ClaimCall.fresh 50 "manual", ClaimCall.retry 60 "Supertrend RETRY - 1 positions pending"]

/-- A position whose `exit_order_id` is already `A`. -/
def c2exec : StrategyExecution :=
  { status := "exit_pending", exit_order_id := some "A"
    exit_reason := some "supertrend_breakout", exit_pending_since := some 10
    exit_attempt_count := some 2, exit_retry_after := some 20
    exit_broker_verified := some false, broker_order_status := some "open"
    exit_time := some 12, error_message := none }

/-- An `exit_pending` position ready for retry (timer elapsed at t = 60,
one attempt used, no order id). -/
def c3exec : StrategyExecution :=
  { status := "exit_pending", exit_order_id := none
    exit_reason := some "supertrend_breakout", exit_pending_since := some 50
    exit_attempt_count := some 1, exit_retry_after := some 60
    exit_broker_verified := some false, broker_order_status := none
    exit_time := none, error_message := some "API error" }

/-- The retry-ready row of the C3 scenario, with a broker environment in
which a retry would succeed. -/
def c3row : ExecRow :=
  { id := 7, legAction := some "SELL", account_active := true
    verifyEnv := safeVerify, placeEnv := OrderResp.ok "RETRY-OID", e := c3exec }

/-- Positionbook reply carrying the live position for the C5 scenario. -/
def c5pb : PosReply :=
  { status := "success", data := [{ symbol := "NIFTY25DEC24000CE", quantity := -10 }] }

/-- Orderbook reply that failed in-band (transport fault surfaced as an
error-status reply). -/
def c5ob : OrderReply := { status := "error", data := [] }

/-- Tradebook reply that failed in-band. -/
def c5tb : TradeReply := { status := "error", data := [] }

/-- A positionbook reply that failed in-band. -/
def pbError : PosReply := { status := "error", data := [] }

/-- A successful but empty orderbook reply. -/
def obEmpty : OrderReply := { status := "success", data := [] }

/-- A successful but empty tradebook reply. -/
def tbEmpty : TradeReply := { status := "success", data := [] }

/-- A position in `entered` whose attempt count already equals
`MAX_EXIT_ATTEMPTS`. -/
def c6exec : StrategyExecution :=
  { status := "entered", exit_order_id := none, exit_reason := none
    exit_pending_since := none, exit_attempt_count := some 5
    exit_retry_after := none, exit_broker_verified := none
    broker_order_status := none, exit_time := none, error_message := none }

/-- An `exit_pending` position with timer armed to t = 30 and two attempts
used. -/
def c7pending : StrategyExecution :=
  { status := "exit_pending", exit_order_id := none
    exit_reason := some "supertrend_breakdown", exit_pending_since := some 10
    exit_attempt_count := some 2, exit_retry_after := some 30
    exit_broker_verified := some false, broker_order_status := none
    exit_time := none, error_message := some "No response" }

/-- First SELL-entry candidate of the C8 scenario. -/
def c8row1 : ExecRow :=
  { id := 1, legAction := some "SELL", account_active := true
    verifyEnv := safeVerify, placeEnv := OrderResp.ok "ORD1", e := freshExecution }

/-- Second SELL-entry candidate of the C8 scenario. -/
def c8row2 : ExecRow :=
  { id := 2, legAction := some "SELL", account_active := true
    verifyEnv := safeVerify, placeEnv := OrderResp.ok "ORD2", e := freshExecution }

/-- The BUY-entry candidate of the C8 scenario. -/
def c8row3 : ExecRow :=
  { id := 3, legAction := some "BUY", account_active := true
    verifyEnv := safeVerify, placeEnv := OrderResp.ok "ORD3", e := freshExecution }

/-- The open legs {SELL, SELL, BUY}, listed with the BUY leg first so the
ordering is visible. -/
def c8rows : List ExecRow := [c8row3, c8row1, c8row2]

/-- A first-trigger reason (no RETRY marker). -/
def c8reason : String := "supertrend_breakout (Close: 102.00, ST: 98.00)"

/-- A position that already carries exit order id `X`. -/
def c9exec : StrategyExecution :=
  { status := "exit_pending", exit_order_id := some "X"
    exit_reason := some "supertrend_breakout", exit_pending_since := some 10
    exit_attempt_count := some 1, exit_retry_after := some 20
    exit_broker_verified := some false, broker_order_status := some "open"
    exit_time := some 12, error_message := none }

/-- The retry-ready position of the C10 scenario. -/
def c10exec : StrategyExecution :=
  { status := "exit_pending", exit_order_id := none
    exit_reason := some "supertrend_breakout", exit_pending_since := some 40
    exit_attempt_count := some 1, exit_retry_after := some 60
    exit_broker_verified := some false, broker_order_status := none
    exit_time := none, error_message := some "timeout" }

/-- The C10 row: its broker verification observes a positionbook reply that
failed in-band (`pbError`) while orderbook and tradebook succeed empty. -/
def c10row : ExecRow :=
  { id := 11, legAction := some "BUY", account_active := true
    verifyEnv := verify_exit_order_at_broker "SYM" 10 (some "BUY") pbError obEmpty tbEmpty
    placeEnv := OrderResp.ok "NEVER-PLACED", e := c10exec }

lemma applyClaim_of_order_id (c : ClaimCall) (e : StrategyExecution) (oid : String)
    (h : e.exit_order_id = some oid) : applyClaim c e = (false, e) := by
  cases c with
  | fresh now reason => simp [applyClaim, atomic_claim_exit, h]
  | retry now reason => simp [applyClaim, atomic_claim_exit_retry, h]

lemma retry_claim_not_due (now t : Nat) (reason : String) (e : StrategyExecution)
    (h3 : e.exit_retry_after = some t) (hlt : now < t) :
    atomic_claim_exit_retry now reason e = (false, e) := by
  unfold atomic_claim_exit_retry
  rw [if_neg]
  rintro ⟨-, -, hd, -⟩
  rw [h3] at hd
  simp only [retryTimerDue] at hd
  omega

lemma retry_claim_success (now t c : Nat) (reason : String) (e : StrategyExecution)
    (h1 : e.status = "exit_pending") (h2 : e.exit_order_id = none)
    (h3 : e.exit_retry_after = some t) (h4 : t ≤ now)
    (h5 : e.exit_attempt_count = some c) (h6 : c < MAX_EXIT_ATTEMPTS) :
    atomic_claim_exit_retry now reason e
      = (true,
          { e with
            exit_attempt_count := some (c + 1)
            exit_retry_after := some (now + EXIT_RETRY_DELAY_SECONDS)
            exit_reason := some reason }) := by
  have hcond : e.status = "exit_pending" ∧ e.exit_order_id = none ∧
      retryTimerDue now e.exit_retry_after ∧ attemptsRemain e.exit_attempt_count := by
    refine ⟨h1, h2, ?_, ?_⟩
    · rw [h3]; exact h4
    · rw [h5]; exact h6
  unfold atomic_claim_exit_retry
  rw [if_pos hcond, h5]
  rfl

/-- C1: once a position's `exit_order_id` is non-null, every subsequent
`atomic_claim_exit` and `atomic_claim_exit_retry` call on it returns false
and leaves all of its fields unchanged, for any sequence of such calls. -/
theorem C1_no_claim_after_exit_order_id (e : StrategyExecution) (oid : String)
    (cs : List ClaimCall) (h : e.exit_order_id = some oid) :
    (runClaims cs e).2 = e ∧ ∀ b ∈ (runClaims cs e).1, b = false := by
  induction cs with
  | nil => exact ⟨rfl, by intro b hb; cases hb⟩
  | cons c cs ih =>
    have hc := applyClaim_of_order_id c e oid h
    constructor
    · simp only [runClaims, hc]
      exact ih.1
    · intro b hb
      simp only [runClaims, hc] at hb
      rcases List.mem_cons.mp hb with h1 | h1
      · exact h1
      · exact ih.2 b h1

/-- Witness for C1 at a concrete position carrying order id OID9 and a
concrete four-call sequence. -/
theorem C1_no_claim_after_exit_order_id_w :
    c1exec.exit_order_id = some "OID9"
    ∧ (runClaims claimSeq c1exec).2 = c1exec
    ∧ ∀ b ∈ (runClaims claimSeq c1exec).1, b = false :=
  ⟨rfl, (C1_no_claim_after_exit_order_id c1exec "OID9" claimSeq rfl).1,
    (C1_no_claim_after_exit_order_id c1exec "OID9" claimSeq rfl).2⟩

lemma applyClaim_ClaimInv (c : ClaimCall) (e : StrategyExecution) (h : ClaimInv e) :
    ClaimInv (applyClaim c e).2 := by
  obtain ⟨ha, hb⟩ := h
  cases c with
  | fresh now reason =>
    simp only [applyClaim, atomic_claim_exit]
    split
    case isTrue hcond =>
      refine ⟨?_, ?_⟩
      · intro k hk
        have hk2 : e.exit_attempt_count.getD 0 + 1 = k := by simpa using hk
        cases hcnt : e.exit_attempt_count with
        | none =>
          rw [hcnt] at hk2
          simp only [Option.getD_none] at hk2
          unfold MAX_EXIT_ATTEMPTS
          omega
        | some m =>
          have hm : m < MAX_EXIT_ATTEMPTS := hb hcond.1 m hcnt
          rw [hcnt] at hk2
          simp only [Option.getD_some] at hk2
          unfold MAX_EXIT_ATTEMPTS at hm ⊢
          omega
      · intro hst
        simp at hst
    case isFalse => exact ⟨ha, hb⟩
  | retry now reason =>
    simp only [applyClaim, atomic_claim_exit_retry]
    split
    case isTrue hcond =>
      obtain ⟨hs, -, -, hrem⟩ := hcond
      refine ⟨?_, ?_⟩
      · intro k hk
        have hk2 : e.exit_attempt_count.getD 0 + 1 = k := by simpa using hk
        cases hcnt : e.exit_attempt_count with
        | none =>
          rw [hcnt] at hrem
          exact absurd hrem (by simp [attemptsRemain])
        | some m =>
          rw [hcnt] at hrem
          have hm : m < MAX_EXIT_ATTEMPTS := hrem
          rw [hcnt] at hk2
          simp only [Option.getD_some] at hk2
          unfold MAX_EXIT_ATTEMPTS at hm ⊢
          omega
      · intro hst
        simp [hs] at hst
    case isFalse => exact ⟨ha, hb⟩

lemma runClaims_ClaimInv (cs : List ClaimCall) (e : StrategyExecution)
    (h : ClaimInv e) : ClaimInv (runClaims cs e).2 := by
  induction cs generalizing e with
  | nil => exact h
  | cons c cs ih =>
    simpa only [runClaims] using ih (applyClaim c e).2 (applyClaim_ClaimInv c e h)

/-- C6 counterexample: a position in `entered` whose attempt count already
equals `MAX_EXIT_ATTEMPTS` is still claimed by `atomic_claim_exit` (which
checks only the status and the order id), pushing the count to 6, above
the bound — so the claim as stated fails for a starting count of exactly
`MAX_EXIT_ATTEMPTS`. -/
theorem C6_cex_fresh_claim_exceeds_max :
    (atomic_claim_exit 0 "max_loss" c6exec).1 = true
    ∧ ((atomic_claim_exit 0 "max_loss" c6exec).2).exit_attempt_count = some 6
    ∧ MAX_EXIT_ATTEMPTS < 6 := by decide

/-- C6 (amended): starting from a position whose attempt count is at most
`MAX_EXIT_ATTEMPTS` and which, while still in `entered`, is strictly below
the bound (true of every freshly created position), no sequence of
`atomic_claim_exit` / `atomic_claim_exit_retry` calls pushes the count
above `MAX_EXIT_ATTEMPTS`. -/
theorem C6_attempt_count_bounded (e : StrategyExecution) (cs : List ClaimCall)
    (h : ClaimInv e) :
    ∀ k, ((runClaims cs e).2).exit_attempt_count = some k → k ≤ MAX_EXIT_ATTEMPTS :=
  (runClaims_ClaimInv cs e h).1

/-- Witness for C6 at a freshly created position and a concrete call
sequence. -/
theorem C6_attempt_count_bounded_w :
    ClaimInv freshExecution
    ∧ ∀ k, ((runClaims claimSeq freshExecution).2).exit_attempt_count = some k →
        k ≤ MAX_EXIT_ATTEMPTS := by
  have hInv : ClaimInv freshExecution := by
    constructor
    · intro k hk
      simp [freshExecution] at hk
    · intro _ k hk
      simp [freshExecution] at hk
  exact ⟨hInv, C6_attempt_count_bounded freshExecution claimSeq hInv⟩

/-- C7: `atomic_claim_exit_retry` strictly before the `exit_retry_after`
instant always returns false; at or after it, on an `exit_pending` row
with no order id and attempts remaining, it returns true, increments the
attempt count, re-arms the timer to now + `EXIT_RETRY_DELAY_SECONDS` and
records the reason. -/
theorem C7_retry_cooldown_gate (now t c : Nat) (reason : String)
    (e : StrategyExecution) :
    (e.exit_retry_after = some t → now < t →
      (atomic_claim_exit_retry now reason e).1 = false)
    ∧ (e.status = "exit_pending" → e.exit_order_id = none →
      e.exit_retry_after = some t → t ≤ now →
      e.exit_attempt_count = some c → c < MAX_EXIT_ATTEMPTS →
      atomic_claim_exit_retry now reason e
        = (true,
            { e with
              exit_attempt_count := some (c + 1)
              exit_retry_after := some (now + EXIT_RETRY_DELAY_SECONDS)
              exit_reason := some reason })) := by
  constructor
  · intro h3 hlt
    rw [retry_claim_not_due now t reason e h3 hlt]
  · intro h1 h2 h3 h4 h5 h6
    exact retry_claim_success now t c reason e h1 h2 h3 h4 h5 h6

/-- Witness for C7: at now = 25 the timer (armed to 30) blocks the retry;
at now = 30 the retry succeeds with count 3 and timer re-armed to 40. -/
theorem C7_retry_cooldown_gate_w :
    (atomic_claim_exit_retry 25 "retryA" c7pending).1 = false
    ∧ atomic_claim_exit_retry 30 "retryB" c7pending
        = (true,
            { c7pending with
              exit_attempt_count := some 3
              exit_retry_after := some 40
              exit_reason := some "retryB" }) :=
  ⟨(C7_retry_cooldown_gate 25 30 2 "retryA" c7pending).1 rfl (by decide),
    (C7_retry_cooldown_gate 30 30 2 "retryB" c7pending).2 rfl rfl rfl (by decide) rfl
      (by decide)⟩

/-- C2 counterexample: on a position whose `exit_order_id` is already `A`,
`mark_exit_confirmed` called with order id `B` overwrites the field — it
does not check whether the id is already set (the code guards on the
argument, `if order_id:`, not on the current field). -/
theorem C2_cex_confirmed_overwrites :
    c2exec.exit_order_id = some "A"
    ∧ (mark_exit_confirmed 0 "complete" (some "B") c2exec).exit_order_id = some "B" := by
  decide

/-- C2 (amended): no controller operation ever sets a non-null
`exit_order_id` back to null; the claims, `mark_exit_pending` and
`mark_exit_failed` never change it at all; but `mark_exit_success`
overwrites it unconditionally with the given id, and `mark_exit_confirmed`
overwrites it whenever its `order_id` argument is a non-empty string, even
if a different id is already stored. -/
theorem C2_exit_order_id_never_cleared (now : Nat) (reason msg bs oid2 : String)
    (inc needs : Bool) (ocid : Option String) (e : StrategyExecution) :
    ((atomic_claim_exit now reason e).2).exit_order_id = e.exit_order_id
    ∧ ((atomic_claim_exit_retry now reason e).2).exit_order_id = e.exit_order_id
    ∧ (mark_exit_pending now reason inc e).exit_order_id = e.exit_order_id
    ∧ (mark_exit_failed now msg needs e).exit_order_id = e.exit_order_id
    ∧ (mark_exit_success now oid2 e).exit_order_id = some oid2
    ∧ (e.exit_order_id ≠ none →
        (mark_exit_confirmed now bs ocid e).exit_order_id ≠ none)
    ∧ (∀ s, ocid = some s → s ≠ "" →
        (mark_exit_confirmed now bs ocid e).exit_order_id = some s) := by
  refine ⟨?_, ?_, rfl, rfl, rfl, ?_, ?_⟩
  · unfold atomic_claim_exit
    split <;> rfl
  · unfold atomic_claim_exit_retry
    split <;> rfl
  · intro hne
    unfold mark_exit_confirmed
    cases ocid with
    | none => simpa using hne
    | some s =>
      by_cases hs : s = ""
      · simp [hs]
        simpa using hne
      · simp [hs]
  · intro s hs hne
    subst hs
    unfold mark_exit_confirmed
    simp [hne]

/-- Witness for C2 at a concrete position already holding order id `A`. -/
theorem C2_exit_order_id_never_cleared_w :
    ((atomic_claim_exit 3 "r" c2exec).2).exit_order_id = c2exec.exit_order_id
    ∧ ((atomic_claim_exit_retry 3 "r" c2exec).2).exit_order_id = c2exec.exit_order_id
    ∧ (mark_exit_pending 3 "r" true c2exec).exit_order_id = c2exec.exit_order_id
    ∧ (mark_exit_failed 3 "err" true c2exec).exit_order_id = c2exec.exit_order_id
    ∧ (mark_exit_success 3 "B" c2exec).exit_order_id = some "B"
    ∧ (mark_exit_confirmed 3 "complete" (some "B") c2exec).exit_order_id ≠ none
    ∧ (mark_exit_confirmed 3 "complete" (some "B") c2exec).exit_order_id = some "B" := by
  have h := C2_exit_order_id_never_cleared 3 "r" "err" "complete" "B" true true
    (some "B") c2exec
  exact ⟨h.1, h.2.1, h.2.2.1, h.2.2.2.1, h.2.2.2.2.1,
    h.2.2.2.2.2.1 (by decide), h.2.2.2.2.2.2 "B" rfl (by decide)⟩

/-- C9 counterexample: `mark_exit_failed` does not touch `exit_order_id`;
called on a position that already carries order id `X`, the id is still
present afterwards, so "exit_order_id is null after every mark_exit_failed
call" fails. -/
theorem C9_cex_order_id_not_nulled :
    (mark_exit_failed 0 "boom" true c9exec).status = "exit_pending"
    ∧ (mark_exit_failed 0 "boom" true c9exec).exit_order_id = some "X"
    ∧ (mark_exit_failed 0 "boom" true c9exec).exit_order_id ≠ none := by
  decide

/-- C9 (amended): after `mark_exit_failed` the status is always
`exit_pending` (never reverted to `entered`), `exit_order_id` is left
exactly as it was (so it is null afterwards precisely when it was null
before the call), the error message is recorded (truncated to 500
characters, the empty string stored as NULL), `exit_retry_after` is
re-armed to now + `EXIT_RETRY_DELAY_SECONDS`, and `exit_broker_verified`
is set to the negation of `needs_broker_verification`. -/
theorem C9_mark_failed_stays_pending (now : Nat) (msg : String) (needs : Bool)
    (e : StrategyExecution) :
    (mark_exit_failed now msg needs e).status = "exit_pending"
    ∧ (mark_exit_failed now msg needs e).exit_order_id = e.exit_order_id
    ∧ (mark_exit_failed now msg needs e).error_message
        = (if msg = "" then none else some (String.mk (msg.data.take 500)))
    ∧ (mark_exit_failed now msg needs e).exit_retry_after
        = some (now + EXIT_RETRY_DELAY_SECONDS)
    ∧ (mark_exit_failed now msg needs e).exit_broker_verified = some (!needs) :=
  ⟨rfl, rfl, rfl, rfl, rfl⟩

/-- C5 counterexample: with a live position of 10 at the broker, an in-band
non-success orderbook reply and an in-band non-success tradebook reply
(both query failures), `verify_exit_order_at_broker` skips both checks and
falls through to `can_place_exit = true` — the claim that every query
failure yields `can_place_exit = false` is false. -/
theorem C5_cex_query_failure_reports_safe :
    c5ob.status ≠ "success"
    ∧ c5tb.status ≠ "success"
    ∧ (verify_exit_order_at_broker "NIFTY25DEC24000CE" 10 (some "SELL")
        c5pb c5ob c5tb).can_place_exit = true := by
  decide

/-- C5 (amended): a positionbook query failure (in-band non-success reply,
which is also how every transport exception surfaces through the client)
makes `verify_exit_order_at_broker` report `can_place_exit = false` (via
the quantity-0 "already closed" path), and an exception raised inside the
verification forces `can_place_exit = false`; but an in-band non-success
orderbook or tradebook reply is merely skipped and can leave
`can_place_exit = true`. -/
theorem C5_fail_closed_scope (symbol : String) (qty : Int) (leg : Option String)
    (pb : PosReply) (ob : OrderReply) (tb : TradeReply) (r : VerifyResult)
    (m : String) (hpb : pb.status ≠ "success") :
    (verify_exit_order_at_broker symbol qty leg pb ob tb).can_place_exit = false
    ∧ (verifyErrorFallback r m).can_place_exit = false := by
  constructor
  · unfold verify_exit_order_at_broker
    simp [hpb]
  · rfl

/-- Witness for C5 at a concrete failed positionbook reply. -/
theorem C5_fail_closed_scope_w :
    pbError.status ≠ "success"
    ∧ (verify_exit_order_at_broker "SYM" 10 (some "SELL")
        pbError obEmpty tbEmpty).can_place_exit = false
    ∧ (verifyErrorFallback safeVerify "timeout").can_place_exit = false :=
  ⟨by decide,
    (C5_fail_closed_scope "SYM" 10 (some "SELL") pbError obEmpty tbEmpty
      safeVerify "timeout" (by decide)).1,
    (C5_fail_closed_scope "SYM" 10 (some "SELL") pbError obEmpty tbEmpty
      safeVerify "timeout" (by decide)).2⟩

/-- C10: when the positionbook query fails in-band (no exception),
`verify_exit_order_at_broker` leaves `position_quantity` at 0 and
therefore reports the position as already closed (`has_exit_order = true`,
`order_status = complete`, `can_place_exit = false`) even though the live
position was never observed; on a retry the coordinator then takes the
complete branch and records the exit via `mark_exit_confirmed`. -/
theorem C10_pb_failure_confirms_exit (symbol : String) (qty : Int)
    (leg : Option String) (pb : PosReply) (ob : OrderReply) (tb : TradeReply)
    (now t c : Nat) (reason : String) (r : ExecRow)
    (hpb : pb.status ≠ "success")
    (hv : r.verifyEnv = verify_exit_order_at_broker symbol qty leg pb ob tb)
    (hst : r.e.status = "exit_pending") (hoid : r.e.exit_order_id = none)
    (hra : r.e.exit_retry_after = some t) (hle : t ≤ now)
    (hc : r.e.exit_attempt_count = some c) (hc1 : 1 ≤ c)
    (hc5 : c < MAX_EXIT_ATTEMPTS) (hacc : r.account_active = true) :
    verify_exit_order_at_broker symbol qty leg pb ob tb
      = { has_exit_order := true, order_status := some "complete", order_id := none,
          position_quantity := 0, can_place_exit := false,
          message := "Position already closed at broker (quantity=0)" }
    ∧ processRow now true reason r
      = ({ r with
            e := mark_exit_confirmed now "complete" none
              (atomic_claim_exit_retry now reason r.e).2 },
          [ExitEvent.confirmedComplete r.id r.legAction]) := by
  have hver : verify_exit_order_at_broker symbol qty leg pb ob tb
      = { has_exit_order := true, order_status := some "complete", order_id := none,
          position_quantity := 0, can_place_exit := false,
          message := "Position already closed at broker (quantity=0)" } := by
    unfold verify_exit_order_at_broker
    simp [hpb]
  refine ⟨hver, ?_⟩
  have hclaim := retry_claim_success now t c reason r.e hst hoid hra hle hc hc5
  have hgt : 1 < c + 1 := by omega
  simp [processRow, processClaimed, hclaim, hacc, hv, hver, hgt]

/-- Witness for C10 at a concrete failed positionbook reply and a concrete
retry-ready row. -/
theorem C10_pb_failure_confirms_exit_w :
    pbError.status ≠ "success"
    ∧ verify_exit_order_at_broker "SYM" 10 (some "BUY") pbError obEmpty tbEmpty
      = { has_exit_order := true, order_status := some "complete", order_id := none,
          position_quantity := 0, can_place_exit := false,
          message := "Position already closed at broker (quantity=0)" }
    ∧ processRow 100 true "Supertrend RETRY - 1 positions pending" c10row
      = ({ c10row with
            e := mark_exit_confirmed 100 "complete" none
              (atomic_claim_exit_retry 100 "Supertrend RETRY - 1 positions pending"
                c10exec).2 },
          [ExitEvent.confirmedComplete 11 (some "BUY")]) := by
  have h := C10_pb_failure_confirms_exit "SYM" 10 (some "BUY") pbError obEmpty tbEmpty
    100 60 1 "Supertrend RETRY - 1 positions pending" c10row (by decide) rfl rfl rfl
    rfl (by decide) rfl (by decide) (by decide) rfl
  exact ⟨by decide, h.1, h.2⟩

/-- C3: the retry sweep only examines strategies whose one-shot latch is
already set, yet `trigger_sequential_exit` returns at its latch check
whenever the latch is set — so for a triggered strategy with a
retry-ready `exit_pending` position the sweep invokes the coordinator
with a RETRY reason and the coordinator processes nothing: no
`atomic_claim_exit_retry` call, no order placement, no row change.  (With
the latch clear, the very same input would claim the position and place
its exit order, showing the retry candidate selection itself works.) -/
theorem C3_latch_blocks_retry_sweep :
    get_pending_exit_retries 100 [c3row] = [c3row]
    ∧ isRetryReason (retryReason 1) = true
    ∧ monitorRetrySweep 100 true [c3row]
      = some { triggered := true, rows := [], events := [] }
    ∧ (trigger_sequential_exit 100 false (retryReason 1) [c3row]).events
      = [ExitEvent.submit 7 (some "SELL") "BUY" (OrderResp.ok "RETRY-OID")] := by
  decide

/-- C4: `calculate_supertrend` documents direction 1 as bullish and -1 as
bearish, and its own `get_final_bands_nb` flips to 1 exactly when the
close breaks above the upper band (with `get_supertrend_signal` mapping it
to BUY); yet `check_supertrend_exit` fires breakout mode on direction -1
and breakdown mode on direction 1.  Concretely: a series whose last close
crosses above the upper band gets direction 1 (bullish, signal BUY) and
does NOT fire breakout, while a series whose last close crosses below the
lower band gets direction -1 (bearish, signal SELL) and DOES fire
breakout; breakdown fires on the bullish value instead. -/
theorem C4_breakout_direction_inverted :
    get_final_bands_dir [10, 20] [15, 25] [5, 8] = [1, 1]
    ∧ get_supertrend_signal [1, 1] = "BUY"
    ∧ check_supertrend_invokes "breakout" [1, 1] = false
    ∧ get_final_bands_dir [10, 2] [15, 25] [5, 8] = [1, -1]
    ∧ get_supertrend_signal [1, -1] = "SELL"
    ∧ check_supertrend_invokes "breakout" [1, -1] = true
    ∧ check_supertrend_invokes "breakdown" [1, 1] = true
    ∧ check_supertrend_invokes "breakdown" [1, -1] = false := by
  decide

lemma claimedEvent_snd (now : Nat) (r : ExecRow) (claim : Bool × StrategyExecution) :
    (processClaimed now r claim).2 = [claimedEvent r claim] := by
  unfold processClaimed claimedEvent submitExitOrder
  cases hp : r.placeEnv
  all_goals repeat' split
  all_goals first
    | rfl
    | simp_all

lemma claimedEvent_leg (r : ExecRow) (claim : Bool × StrategyExecution) :
    ExitEvent.leg (claimedEvent r claim) = r.legAction := by
  unfold claimedEvent
  repeat' split
  all_goals rfl

lemma claimedEvent_submit (r : ExecRow) (claim : Bool × StrategyExecution)
    (i : Nat) (l : Option String) (a : String) (rsp : OrderResp)
    (h : claimedEvent r claim = ExitEvent.submit i l a rsp) :
    l = r.legAction ∧ a = exitActionOf r.legAction := by
  unfold claimedEvent at h
  repeat' split at h
  all_goals first
    | exact ExitEvent.noConfusion h
    | (injection h with h1 h2 h3 h4
       exact ⟨h2.symm, h3.symm⟩)

lemma processRow_snd (now : Nat) (b : Bool) (reason : String) (r : ExecRow) :
    (processRow now b reason r).2 = [rowEvent now b reason r] :=
  claimedEvent_snd now r
    (if b then atomic_claim_exit_retry now reason r.e
     else atomic_claim_exit now reason r.e)

lemma rowEvent_leg (now : Nat) (b : Bool) (reason : String) (r : ExecRow) :
    ExitEvent.leg (rowEvent now b reason r) = r.legAction :=
  claimedEvent_leg r
    (if b then atomic_claim_exit_retry now reason r.e
     else atomic_claim_exit now reason r.e)

lemma rowEvent_submit (now : Nat) (b : Bool) (reason : String) (r : ExecRow)
    (i : Nat) (l : Option String) (a : String) (rsp : OrderResp)
    (h : rowEvent now b reason r = ExitEvent.submit i l a rsp) :
    l = r.legAction ∧ a = exitActionOf r.legAction :=
  claimedEvent_submit r
    (if b then atomic_claim_exit_retry now reason r.e
     else atomic_claim_exit now reason r.e) i l a rsp h

lemma rowEvents_leg (now : Nat) (b : Bool) (reason : String) (r : ExecRow) :
    ∀ ev ∈ rowEvents now b reason r, ExitEvent.leg ev = r.legAction := by
  intro ev hev
  unfold rowEvents at hev
  rw [processRow_snd] at hev
  rw [List.mem_singleton.mp hev]
  exact rowEvent_leg now b reason r

lemma rowEvents_submit_action (now : Nat) (b : Bool) (reason : String) (r : ExecRow) :
    ∀ ev ∈ rowEvents now b reason r, ∀ i l a rsp,
      ev = ExitEvent.submit i l a rsp →
      l = r.legAction ∧ a = exitActionOf r.legAction := by
  intro ev hev i l a rsp heq
  unfold rowEvents at hev
  rw [processRow_snd] at hev
  exact rowEvent_submit now b reason r i l a rsp ((List.mem_singleton.mp hev) ▸ heq)

lemma filter3_perm (l : List ExecRow)
    (h : ∀ r ∈ l, legSell r = true ∨ legBuy r = true ∨ legUnknown r = true) :
    (l.filter legSell ++ l.filter legBuy ++ l.filter legUnknown).Perm l := by
  induction l with
  | nil => simp
  | cons a t ih =>
    have ht : ∀ r ∈ t, legSell r = true ∨ legBuy r = true ∨ legUnknown r = true :=
      fun r hr => h r (List.mem_cons_of_mem a hr)
    have hperm := ih ht
    rcases h a (List.mem_cons_self a t) with ha | ha | ha
    · have hA : a.legAction = some "SELL" := by simpa [legSell] using ha
      have hb : legBuy a = false := by simp [legBuy, hA]
      have hu : legUnknown a = false := by simp [legUnknown, hA]
      simp only [List.filter_cons, ha, hb, hu, if_true, Bool.false_eq_true, if_false]
      simpa using hperm.cons a
    · have hA : a.legAction = some "BUY" := by simpa [legBuy] using ha
      have hs : legSell a = false := by simp [legSell, hA]
      have hu : legUnknown a = false := by simp [legUnknown, hA]
      simp only [List.filter_cons, ha, hs, hu, if_true, Bool.false_eq_true, if_false]
      have e1 : (t.filter legSell ++ (a :: t.filter legBuy)) ++ t.filter legUnknown
          = t.filter legSell ++ a :: (t.filter legBuy ++ t.filter legUnknown) := by
        simp [List.append_assoc]
      rw [e1]
      refine List.perm_middle.trans ?_
      refine List.Perm.cons a ?_
      simpa [List.append_assoc] using hperm
    · have hA : a.legAction = none := by simpa [legUnknown] using ha
      have hs : legSell a = false := by simp [legSell, hA]
      have hb : legBuy a = false := by simp [legBuy, hA]
      simp only [List.filter_cons, ha, hs, hb, if_true, Bool.false_eq_true, if_false]
      refine List.perm_middle.trans ?_
      exact List.Perm.cons a hperm

/-- C8: in one coordinator invocation (latch clear) whose candidates all
have a SELL leg, a BUY leg or no leg, the per-position steps come in three
consecutive blocks — first all steps of SELL-entry candidates, then all
steps of BUY-entry candidates, then candidates without a leg — the
processing order is a permutation of the candidates, and every order
submission for a SELL-entry position is a BUY order while every
submission for a BUY-entry (or legless) position is a SELL order. -/
theorem C8_sell_entries_first (now : Nat) (reason : String) (rows : List ExecRow)
    (h : ∀ r ∈ rows, legSell r = true ∨ legBuy r = true ∨ legUnknown r = true) :
    (orderedRows (candidateRows (isRetryReason reason) rows)).Perm
      (candidateRows (isRetryReason reason) rows)
    ∧ (trigger_sequential_exit now false reason rows).events
      = ((candidateRows (isRetryReason reason) rows).filter legSell).flatMap
          (rowEvents now (isRetryReason reason) reason)
        ++ ((candidateRows (isRetryReason reason) rows).filter legBuy).flatMap
          (rowEvents now (isRetryReason reason) reason)
        ++ ((candidateRows (isRetryReason reason) rows).filter legUnknown).flatMap
          (rowEvents now (isRetryReason reason) reason)
    ∧ (∀ ev ∈ ((candidateRows (isRetryReason reason) rows).filter legSell).flatMap
          (rowEvents now (isRetryReason reason) reason),
        ExitEvent.leg ev = some "SELL")
    ∧ (∀ ev ∈ ((candidateRows (isRetryReason reason) rows).filter legBuy).flatMap
          (rowEvents now (isRetryReason reason) reason),
        ExitEvent.leg ev = some "BUY")
    ∧ (∀ ev ∈ ((candidateRows (isRetryReason reason) rows).filter legUnknown).flatMap
          (rowEvents now (isRetryReason reason) reason),
        ExitEvent.leg ev = none)
    ∧ (∀ ev ∈ (trigger_sequential_exit now false reason rows).events, ∀ i l a rsp,
        ev = ExitEvent.submit i l a rsp →
          (l = some "SELL" → a = "BUY") ∧ (l = some "BUY" → a = "SELL")
          ∧ (l = none → a = "SELL")) := by
  have hcands : ∀ r ∈ candidateRows (isRetryReason reason) rows,
      legSell r = true ∨ legBuy r = true ∨ legUnknown r = true := by
    intro r hr
    apply h
    unfold candidateRows at hr
    exact (List.mem_filter.mp (List.mem_filter.mp hr).1).1
  have hbase : (trigger_sequential_exit now false reason rows).events
      = (orderedRows (candidateRows (isRetryReason reason) rows)).flatMap
          (rowEvents now (isRetryReason reason) reason) := rfl
  have hevents : (trigger_sequential_exit now false reason rows).events
      = ((candidateRows (isRetryReason reason) rows).filter legSell).flatMap
          (rowEvents now (isRetryReason reason) reason)
        ++ ((candidateRows (isRetryReason reason) rows).filter legBuy).flatMap
          (rowEvents now (isRetryReason reason) reason)
        ++ ((candidateRows (isRetryReason reason) rows).filter legUnknown).flatMap
          (rowEvents now (isRetryReason reason) reason) := by
    rw [hbase]
    unfold orderedRows
    rw [List.flatMap_append, List.flatMap_append]
  refine ⟨filter3_perm _ hcands, hevents, ?_, ?_, ?_, ?_⟩
  · intro ev hev
    obtain ⟨r, hr, hev2⟩ := List.mem_flatMap.mp hev
    have hfil := (List.mem_filter.mp hr).2
    have hA : r.legAction = some "SELL" := by simpa [legSell] using hfil
    rw [rowEvents_leg now _ reason r ev hev2, hA]
  · intro ev hev
    obtain ⟨r, hr, hev2⟩ := List.mem_flatMap.mp hev
    have hfil := (List.mem_filter.mp hr).2
    have hA : r.legAction = some "BUY" := by simpa [legBuy] using hfil
    rw [rowEvents_leg now _ reason r ev hev2, hA]
  · intro ev hev
    obtain ⟨r, hr, hev2⟩ := List.mem_flatMap.mp hev
    have hfil := (List.mem_filter.mp hr).2
    have hA : r.legAction = none := by simpa [legUnknown] using hfil
    rw [rowEvents_leg now _ reason r ev hev2, hA]
  · intro ev hev i l a rsp heq
    rw [hbase] at hev
    obtain ⟨r, hr, hev2⟩ := List.mem_flatMap.mp hev
    obtain ⟨hl, ha2⟩ := rowEvents_submit_action now _ reason r ev hev2 i l a rsp heq
    refine ⟨?_, ?_, ?_⟩ <;> intro hlv
    · rw [ha2, ← hl, hlv]
      decide
    · rw [ha2, ← hl, hlv]
      decide
    · rw [ha2, ← hl, hlv]
      decide

/-- Witness for C8 at the open legs {SELL, SELL, BUY} (listed with the BUY
leg first): the two BUY-closing orders are issued strictly before the
SELL-closing order. -/
theorem C8_sell_entries_first_w :
    (∀ r ∈ c8rows, legSell r = true ∨ legBuy r = true ∨ legUnknown r = true)
    ∧ (orderedRows (candidateRows (isRetryReason c8reason) c8rows)).Perm
        (candidateRows (isRetryReason c8reason) c8rows)
    ∧ (trigger_sequential_exit 0 false c8reason c8rows).events
      = [ExitEvent.submit 1 (some "SELL") "BUY" (OrderResp.ok "ORD1"),
         ExitEvent.submit 2 (some "SELL") "BUY" (OrderResp.ok "ORD2"),
         ExitEvent.submit 3 (some "BUY") "SELL" (OrderResp.ok "ORD3")] :=
  ⟨by decide, (C8_sell_entries_first 0 c8reason c8rows (by decide)).1, by decide⟩
